import Mathlib

/-!
Verification of the BME280 & DS18B20 logger (`src_python/main.py`).

Shallow embedding conventions:
* Python floats are modelled as exact rationals (`ℚ`); the numeric claims
  under scrutiny are about unit conversions, field routing and formatting,
  none of which depend on binary rounding of IEEE doubles.
* The GUI widgets are out of scope; what is embedded is the mutable shared
  state the acquisition loop touches: the `State` record ("Reading"), the
  four `HistoryChartCurve` buffers, and the `FileLogger`.
* `time.perf_counter()` is modelled as an input `pc_time` supplied to each
  tick (it is a monotonic PC/process clock reading).
* Components of this repository that are imported by `main.py` but whose
  source is not part of the checked tree (`DvG_pyqt_FileLogger`, the
  `HistoryChartCurve` buffer, the `QDeviceIO` DAQ worker) are modelled from
  the spec; each such definition carries a doc comment starting with
  `Modelled from the spec:`.
-/

namespace BmeLogger

/-- Constant `DAQ_INTERVAL_MS = 1000` from `main.py`. -/
def DAQ_INTERVAL_MS : ℕ := 1000

/-- Constant `CHART_INTERVAL_MS = 500` from `main.py`. -/
def CHART_INTERVAL_MS : ℕ := 500

/-- Constant `CHART_HISTORY_TIME = 60` (seconds) from `main.py`. -/
def CHART_HISTORY_TIME : ℕ := 60

/-- `num_samples = round(CHART_HISTORY_TIME * 1e3 / DAQ_INTERVAL_MS)` from
`MainWindow.__init__`; the capacity handed to each of the 4 chart curves. -/
def num_samples : ℤ :=
  round ((CHART_HISTORY_TIME : ℚ) * 1000 / (DAQ_INTERVAL_MS : ℚ))

/-- The shared `State` instance of `main.py` ("Reading" in the spec): one
snapshot of the sensor suite. -/
structure Reading where
  time : ℚ
  ds_temp : ℚ
  bme_temp : ℚ
  bme_humi : ℚ
  bme_pres : ℚ
deriving DecidableEq, Repr

/-- The parse block of `DAQ_function` (the `try:` body): tuple-unpack the 5
response fields into the state variables, then `state.time /= 1000` and
`state.bme_pres /= 1e5`.  Python's tuple unpacking stores nothing when the
arity is wrong, so a wrong-arity response yields `none` and the prior
reading survives untouched. -/
def parseAssign (fields : List ℚ) (st : Reading) : Option Reading :=
  match fields with
  | [v0, v1, v2, v3, v4] =>
    let st1 : Reading :=
      { st with time := v0, ds_temp := v1, bme_temp := v2,
                bme_humi := v3, bme_pres := v4 }
    let st2 : Reading := { st1 with time := st1.time / 1000 }
    let st3 : Reading := { st2 with bme_pres := st2.bme_pres / 100000 }
    some st3
  | _ => none

/-- The local constant `use_PC_time = True` in `DAQ_function`. -/
def use_PC_time : Bool := true

/-- Modelled from the spec: a `HistoryChartCurve` of
`dvg_pyqtgraph_threadsafe` (not part of the checked tree) is "a
fixed-capacity ordered sequence of `(time, value)` pairs"; "oldest samples
are evicted once capacity is exceeded (ring-buffer semantics)". -/
structure HistoryChartCurve where
  capacity : ℕ
  data : List (ℚ × ℚ)
deriving DecidableEq, Repr

/-- Modelled from the spec: appending to a full chart buffer evicts the
oldest sample; the buffer keeps the most recent `capacity` samples in FIFO
order. -/
def HistoryChartCurve.add_new_reading (c : HistoryChartCurve) (t v : ℚ) :
    HistoryChartCurve :=
  let d := c.data ++ [(t, v)]
  { c with data := if c.capacity < d.length then d.drop (d.length - c.capacity) else d }

/-- A chart curve as created in `MainWindow.__init__`:
`addThreadSafeCurve("HistoryChartCurve", capacity=num_samples, ...)`. -/
def initCurve : HistoryChartCurve :=
  { capacity := num_samples.toNat, data := [] }

/-- One log file: its name and the text written to it so far. -/
structure LogFile where
  name : String
  content : String
deriving DecidableEq, Repr

/-- Modelled from the spec: the `FileLogger` of `DvG_pyqt_FileLogger` (a
file of this repository not present in the checked tree).  `starting` and
`stopping` are the two latch flags set by the UI thread; `is_recording`,
`start_time` and the open file handle are owned by the acquisition loop.
`closed` accumulates files already closed, so that "no file operation" is
expressible. -/
structure FileLogger where
  starting : Bool
  stopping : Bool
  is_recording : Bool
  start_time : ℚ
  file : Option LogFile
  closed : List LogFile
deriving DecidableEq, Repr

/-- Modelled from the spec: `FileLogger.create_log(start_time, filename,
mode="w")` consumes the `starting` latch; when idle it opens (truncates) the
named file, records the session start time and enters `Recording`, returning
success; "double-starting must be a no-op" — when already recording nothing
is created and no data is lost. -/
def FileLogger.create_log (L : FileLogger) (t : ℚ) (fn : String) :
    Bool × FileLogger :=
  if L.is_recording then
    (false, { L with starting := false })
  else
    (true, { L with starting := false, is_recording := true,
                    start_time := t, file := some { name := fn, content := "" } })

/-- Modelled from the spec: `FileLogger.write` appends text to the open log
file; with no open file it writes nowhere. -/
def FileLogger.write (L : FileLogger) (s : String) : FileLogger :=
  match L.file with
  | some f => { L with file := some { f with content := f.content ++ s } }
  | none => L

/-- Modelled from the spec: `FileLogger.close_log` consumes the `stopping`
latch and returns to `Idle`, closing the file if one is open; "closing when
not recording must be a no-op" — never an error. -/
def FileLogger.close_log (L : FileLogger) : FileLogger :=
  { L with stopping := false, is_recording := false, file := none,
           closed := match L.file with
                     | some f => L.closed ++ [f]
                     | none => L.closed }

/-- Pad a digit string with leading zeros to width `w`. -/
def padZeros (w : ℕ) (s : String) : String :=
  String.mk (List.replicate (w - s.length) '0') ++ s

/-- Print a scaled integer (the value times `10 ^ nd`) with `nd` fractional
digits. -/
def fmtScaled (nd : ℕ) (scaled : ℤ) : String :=
  (if scaled < 0 then "-" else "") ++
    (if nd = 0 then toString scaled.natAbs
     else toString (scaled.natAbs / 10 ^ nd) ++ "." ++
       padZeros nd (toString (scaled.natAbs % 10 ^ nd)))

/-- Python's `"%.<nd>f" % q` fixed-point formatting on exact rationals:
round to `nd` decimals and print with exactly `nd` fractional digits.  (For
the values in the verified statements no rounding tie arises, so the tie
rule is immaterial.) -/
def formatFixed (nd : ℕ) (q : ℚ) : String :=
  fmtScaled nd (round (q * (10 : ℚ) ^ nd))

/-- The fixed header line written by `DAQ_function` when a log is created. -/
def logHeader : String :=
  "time [s]\tDS18B20 temp (\x27C)\tBME280 temp (\x27C)\tBME280 humi (pct)\tBME280 pres (bar)\n"

/-- One data line: `"%.1f\t%.3f\t%.3f\t%.3f\t%.5f\n" % (log_elapsed_time,
state.ds_temp, state.bme_temp, state.bme_humi, state.bme_pres)`. -/
def logLine (elapsed ds bt bh bp : ℚ) : String :=
  formatFixed 1 elapsed ++ "\t" ++ formatFixed 3 ds ++ "\t" ++
    formatFixed 3 bt ++ "\t" ++ formatFixed 3 bh ++ "\t" ++
    formatFixed 5 bp ++ "\n"

/-- The per-tick inputs of `DAQ_function`: the Arduino's reply to
`query_ascii_values("?")` (success flag and parsed numeric fields), the PC
clock `time.perf_counter()`, and `str_cur_datetime` used for the log file
name. -/
structure Poll where
  success : Bool
  fields : List ℚ
  pc_time : ℚ
  str_cur_datetime : String
deriving DecidableEq, Repr

/-- All the shared mutable state `DAQ_function` touches. -/
structure SysState where
  state : Reading
  tscurve_ds_temp : HistoryChartCurve
  tscurve_bme_temp : HistoryChartCurve
  tscurve_bme_humi : HistoryChartCurve
  tscurve_bme_pres : HistoryChartCurve
  file_logger : FileLogger
deriving DecidableEq, Repr

/-- The "Logging to file" block of `DAQ_function` (lines 428-460): the
`starting` latch is serviced first (create the file named
`str_cur_datetime + ".txt"` and write the header on success), then the
`stopping` latch (close the file), and finally, if still recording, one
data line is appended with elapsed time `state.time - file_logger.start_time`. -/
def loggerService (L0 : FileLogger) (st2 : Reading) (dt : String) : FileLogger :=
  let L1 :=
    if L0.starting then
      let fn := dt ++ ".txt"
      let r := L0.create_log st2.time fn
      if r.1 then r.2.write logHeader else r.2
    else L0
  let L2 := if L1.stopping then L1.close_log else L1
  if L2.is_recording then
    L2.write (logLine (st2.time - L2.start_time) st2.ds_temp st2.bme_temp
      st2.bme_humi st2.bme_pres)
  else L2

/-- `DAQ_function` of `main.py`, lines 385-462: query, parse, overwrite the
time with the PC clock, feed the 4 chart buffers, then service the logger
(see `loggerService`).  Returns the function's boolean result together with
the updated shared state. -/
def DAQ_function (p : Poll) (s : SysState) : Bool × SysState :=
  if p.success = false then (false, s)
  else
    match parseAssign p.fields s.state with
    | none => (false, s)
    | some st1 =>
      let st2 := if use_PC_time then { st1 with time := p.pc_time } else st1
      let c1 := s.tscurve_ds_temp.add_new_reading st2.time st2.ds_temp
      let c2 := s.tscurve_bme_temp.add_new_reading st2.time st2.bme_temp
      let c3 := s.tscurve_bme_humi.add_new_reading st2.time st2.bme_humi
      let c4 := s.tscurve_bme_pres.add_new_reading st2.time st2.bme_pres
      (true, { state := st2, tscurve_ds_temp := c1, tscurve_bme_temp := c2,
               tscurve_bme_humi := c3, tscurve_bme_pres := c4,
               file_logger := loggerService s.file_logger st2 p.str_cur_datetime })

/-- Run `DAQ_function` over a list of polls, threading the shared state. -/
def runDAQ (ps : List Poll) (s : SysState) : SysState :=
  ps.foldl (fun s p => (DAQ_function p s).2) s

/-- `MainWindow.process_qpbt_clear_chart`: on a confirmed dialog reply,
`tsgwin.clear_curves()` empties every curve of the window; nothing else is
touched.  A negative reply does nothing. -/
def process_qpbt_clear_chart (reply_yes : Bool) (s : SysState) : SysState :=
  if reply_yes then
    { s with
      tscurve_ds_temp := { s.tscurve_ds_temp with data := [] },
      tscurve_bme_temp := { s.tscurve_bme_temp with data := [] },
      tscurve_bme_humi := { s.tscurve_bme_humi with data := [] },
      tscurve_bme_pres := { s.tscurve_bme_pres with data := [] } }
  else s

/-- `critical_not_alive_count = 3` passed to `qdev_ard.create_worker_DAQ`. -/
def critical_not_alive_count : ℕ := 3

/-- Modelled from the spec: the DAQ worker of `dvg_qdeviceio` (not part of
the checked tree) keeps a consecutive-failure tally, fires the
connection-lost signal when the tally reaches `critical_not_alive_count`,
and polling then halts permanently. -/
structure WorkerDAQ where
  not_alive_counter : ℕ
  halted : Bool
  connection_lost_signals : ℕ
deriving DecidableEq, Repr

/-- Modelled from the spec: one worker tick.  A halted worker issues no
query; otherwise a query is issued, a success resets the tally, a failure
increments it, and on reaching the threshold the worker signals connection
lost and halts.  Returns the new worker state and whether a query was
issued this tick. -/
def workerTick (w : WorkerDAQ) (ok : Bool) : WorkerDAQ × Bool :=
  if w.halted then (w, false)
  else if ok then ({ w with not_alive_counter := 0 }, true)
  else
    let c := w.not_alive_counter + 1
    if critical_not_alive_count ≤ c then
      ({ not_alive_counter := c, halted := true,
         connection_lost_signals := w.connection_lost_signals + 1 }, true)
    else ({ w with not_alive_counter := c }, true)

/-- Run the worker over a sequence of would-be poll outcomes; returns the
final worker state and the number of queries actually issued. -/
def workerRun (w : WorkerDAQ) : List Bool → WorkerDAQ × ℕ
  | [] => (w, 0)
  | ok :: rest =>
    let r := workerTick w ok
    let r2 := workerRun r.1 rest
    (r2.1, (if r.2 then 1 else 0) + r2.2)

/-- The worker as started by `qdev_ard.start()`: fresh tally, not halted,
no signal fired yet. -/
def workerInit : WorkerDAQ := ⟨0, false, 0⟩

/-- The refresh triggers wired up in `main.py`'s main block. -/
inductive UiTrigger where
  | signal_DAQ_updated
  | signal_connection_lost
  | timer_chart
deriving DecidableEq, Repr

/-- The slots those triggers invoke. -/
inductive UiSlot where
  | update_GUI
  | update_chart
  | notify_connection_lost
deriving DecidableEq, Repr

/-- The signal/slot and timer wiring of `main.py`:
`qdev_ard.signal_DAQ_updated.connect(update_GUI)`,
`qdev_ard.signal_connection_lost.connect(notify_connection_lost)`, and
`timer_chart.timeout.connect(update_chart)` with
`timer_chart.start(CHART_INTERVAL_MS)`. -/
def uiConnections : List (UiTrigger × UiSlot) :=
  [(UiTrigger.signal_DAQ_updated, UiSlot.update_GUI),
   (UiTrigger.signal_connection_lost, UiSlot.notify_connection_lost),
   (UiTrigger.timer_chart, UiSlot.update_chart)]

/-! ## Helper lemmas about the chart buffer -/

/-- Keep the last `cap` entries of a list. -/
def keepLast (cap : ℕ) (l : List (ℚ × ℚ)) : List (ℚ × ℚ) :=
  l.drop (l.length - cap)

/-- Append a whole sample list to a curve, one `add_new_reading` at a time
(the shape of repeated acquisition ticks feeding one curve). -/
def appendAll (c : HistoryChartCurve) (ps : List (ℚ × ℚ)) : HistoryChartCurve :=
  ps.foldl (fun c p => c.add_new_reading p.1 p.2) c

theorem add_new_reading_data (c : HistoryChartCurve) (t v : ℚ) :
    (c.add_new_reading t v).data = keepLast c.capacity (c.data ++ [(t, v)]) := by
  show (if c.capacity < (c.data ++ [(t, v)]).length
        then (c.data ++ [(t, v)]).drop ((c.data ++ [(t, v)]).length - c.capacity)
        else c.data ++ [(t, v)]) = _
  by_cases h : c.capacity < (c.data ++ [(t, v)]).length
  · rw [if_pos h]; rfl
  · rw [if_neg h]
    show _ = (c.data ++ [(t, v)]).drop ((c.data ++ [(t, v)]).length - c.capacity)
    have h0 : (c.data ++ [(t, v)]).length - c.capacity = 0 := by omega
    rw [h0, List.drop_zero]

theorem add_new_reading_capacity (c : HistoryChartCurve) (t v : ℚ) :
    (c.add_new_reading t v).capacity = c.capacity := rfl

theorem keepLast_length_le (cap : ℕ) (l : List (ℚ × ℚ)) :
    (keepLast cap l).length ≤ cap ∨ l.length ≤ cap := by
  simp only [keepLast, List.length_drop]
  omega

theorem keepLast_of_length_le (cap : ℕ) (l : List (ℚ × ℚ)) (h : l.length ≤ cap) :
    keepLast cap l = l := by
  show l.drop (l.length - cap) = l
  have h0 : l.length - cap = 0 := by omega
  rw [h0, List.drop_zero]

theorem keepLast_append_keepLast (cap : ℕ) (l m : List (ℚ × ℚ)) :
    keepLast cap (keepLast cap l ++ m) = keepLast cap (l ++ m) := by
  by_cases hl : l.length ≤ cap
  · rw [keepLast_of_length_le cap l hl]
  · have hsplit : l.take (l.length - cap) ++ l.drop (l.length - cap) = l :=
      List.take_append_drop _ l
    have htk : (l.take (l.length - cap)).length = l.length - cap := by
      rw [List.length_take]; omega
    have hdl : (l.drop (l.length - cap)).length = cap := by
      rw [List.length_drop]; omega
    show keepLast cap (l.drop (l.length - cap) ++ m) = keepLast cap (l ++ m)
    conv_rhs => rw [← hsplit, List.append_assoc]
    show (l.drop (l.length - cap) ++ m).drop
          ((l.drop (l.length - cap) ++ m).length - cap)
        = (l.take (l.length - cap) ++ (l.drop (l.length - cap) ++ m)).drop
            ((l.take (l.length - cap) ++ (l.drop (l.length - cap) ++ m)).length - cap)
    simp only [List.length_append, hdl, htk]
    have e1 : cap + m.length - cap = m.length := by omega
    have e2 : l.length - cap + (cap + m.length) - cap
        = (l.take (l.length - cap)).length + m.length := by
      rw [htk]; omega
    rw [e1, e2, List.drop_append]

theorem appendAll_spec (ps : List (ℚ × ℚ)) :
    ∀ c : HistoryChartCurve, c.data.length ≤ c.capacity →
      (appendAll c ps).data = keepLast c.capacity (c.data ++ ps) ∧
      (appendAll c ps).capacity = c.capacity := by
  induction ps with
  | nil =>
    intro c hc
    refine ⟨?_, rfl⟩
    show c.data = keepLast c.capacity (c.data ++ [])
    rw [List.append_nil, keepLast_of_length_le _ _ hc]
  | cons p ps ih =>
    intro c hc
    have hstep : (c.add_new_reading p.1 p.2).data.length ≤
        (c.add_new_reading p.1 p.2).capacity := by
      rw [add_new_reading_data, add_new_reading_capacity]
      simp only [keepLast, List.length_drop, List.length_append]
      omega
    have h2 := ih (c.add_new_reading p.1 p.2) hstep
    constructor
    · show (appendAll (c.add_new_reading p.1 p.2) ps).data = _
      rw [h2.1, add_new_reading_capacity, add_new_reading_data,
        keepLast_append_keepLast, List.append_assoc]
      rfl
    · show (appendAll (c.add_new_reading p.1 p.2) ps).capacity = _
      rw [h2.2, add_new_reading_capacity]

/-! ## Helper lemmas about parsing and the DAQ tick -/

theorem parseAssign_five (st : Reading) (v0 v1 v2 v3 v4 : ℚ) :
    parseAssign [v0, v1, v2, v3, v4] st =
      some { time := v0 / 1000, ds_temp := v1, bme_temp := v2,
             bme_humi := v3, bme_pres := v4 / 100000 } := rfl

theorem parseAssign_wrong_arity :
    ∀ (fields : List ℚ) (st : Reading), fields.length ≠ 5 →
      parseAssign fields st = none
  | [], _, _ => rfl
  | [_], _, _ => rfl
  | [_, _], _, _ => rfl
  | [_, _, _], _, _ => rfl
  | [_, _, _, _], _, _ => rfl
  | [_, _, _, _, _], _, h => absurd rfl h
  | _ :: _ :: _ :: _ :: _ :: _ :: _, _, _ => rfl

theorem DAQ_function_success (s : SysState) (v0 v1 v2 v3 v4 pc : ℚ)
    (dt : String) :
    DAQ_function ⟨true, [v0, v1, v2, v3, v4], pc, dt⟩ s =
      (true,
       { state := ⟨pc, v1, v2, v3, v4 / 100000⟩,
         tscurve_ds_temp := s.tscurve_ds_temp.add_new_reading pc v1,
         tscurve_bme_temp := s.tscurve_bme_temp.add_new_reading pc v2,
         tscurve_bme_humi := s.tscurve_bme_humi.add_new_reading pc v3,
         tscurve_bme_pres := s.tscurve_bme_pres.add_new_reading pc (v4 / 100000),
         file_logger :=
           loggerService s.file_logger ⟨pc, v1, v2, v3, v4 / 100000⟩ dt }) := rfl

theorem loggerService_recording (st : ℚ) (fn c : String) (cl : List LogFile)
    (st2 : Reading) (dt : String) :
    loggerService ⟨false, false, true, st, some ⟨fn, c⟩, cl⟩ st2 dt =
      ⟨false, false, true, st,
       some ⟨fn, c ++ logLine (st2.time - st) st2.ds_temp st2.bme_temp
         st2.bme_humi st2.bme_pres⟩, cl⟩ := rfl

theorem loggerService_starting (st0 : ℚ) (cl : List LogFile) (st2 : Reading)
    (dt : String) :
    loggerService ⟨true, false, false, st0, none, cl⟩ st2 dt =
      ⟨false, false, true, st2.time,
       some ⟨dt ++ ".txt",
         logHeader ++ logLine (st2.time - st2.time) st2.ds_temp st2.bme_temp
           st2.bme_humi st2.bme_pres⟩, cl⟩ := rfl

/-- A successful acquisition tick, presented as the parsed device fields
`w0..w4` plus the tick's PC clock value and date-time string. -/
structure Sample where
  dt : String
  pc_time : ℚ
  w0 : ℚ
  w1 : ℚ
  w2 : ℚ
  w3 : ℚ
  w4 : ℚ
deriving DecidableEq, Repr

/-- The poll a `Sample` gives rise to: a successful query whose response has
exactly the five device fields. -/
def Sample.toPoll (x : Sample) : Poll :=
  ⟨true, [x.w0, x.w1, x.w2, x.w3, x.w4], x.pc_time, x.dt⟩

/-- Concatenate a list of log lines. -/
def joinLines : List String → String
  | [] => ""
  | s :: rest => s ++ joinLines rest

/-- The data line a sample contributes to a session whose start time is
`st`. -/
def sampleLine (st : ℚ) (y : Sample) : String :=
  logLine (y.pc_time - st) y.w1 y.w2 y.w3 (y.w4 / 100000)

theorem runDAQ_recording (ys : List Sample) :
    ∀ (s : SysState) (st : ℚ) (fn c : String) (cl : List LogFile),
      s.file_logger = ⟨false, false, true, st, some ⟨fn, c⟩, cl⟩ →
      (runDAQ (ys.map Sample.toPoll) s).file_logger =
        ⟨false, false, true, st,
         some ⟨fn, c ++ joinLines (ys.map (sampleLine st))⟩, cl⟩ := by
  induction ys with
  | nil =>
    intro s st fn c cl h
    show s.file_logger = _
    rw [h]
    simp only [List.map_nil, joinLines, String.append_empty]
  | cons y ys ih =>
    intro s st fn c cl h
    show (runDAQ (ys.map Sample.toPoll) (DAQ_function y.toPoll s).2).file_logger = _
    have hstep : (DAQ_function y.toPoll s).2.file_logger =
        loggerService s.file_logger ⟨y.pc_time, y.w1, y.w2, y.w3, y.w4 / 100000⟩ y.dt := rfl
    have hlog : (DAQ_function y.toPoll s).2.file_logger =
        ⟨false, false, true, st, some ⟨fn, c ++ sampleLine st y⟩, cl⟩ := by
      rw [hstep, h, loggerService_recording]
      rfl
    rw [ih _ st fn (c ++ sampleLine st y) cl hlog,
      show joinLines ((y :: ys).map (sampleLine st))
          = sampleLine st y ++ joinLines (ys.map (sampleLine st)) from rfl,
      ← String.append_assoc]

/-! ## Helper lemmas about the DAQ worker -/

theorem workerRun_halted (tr : List Bool) :
    ∀ w : WorkerDAQ, w.halted = true → workerRun w tr = (w, 0) := by
  induction tr with
  | nil => intro w _; rfl
  | cons ok rest ih =>
    intro w hw
    show ((workerRun (workerTick w ok).1 rest).1,
          (if (workerTick w ok).2 then 1 else 0) +
            (workerRun (workerTick w ok).1 rest).2) = (w, 0)
    have ht : workerTick w ok = (w, false) := by
      unfold workerTick
      rw [hw]
      simp
    rw [ht, ih w hw]
    rfl

/-- Evaluation helper for `formatFixed`: reduce the rational rounding step
to an integer, after which the digit printing is pure `Nat` computation. -/
theorem formatFixed_eval (nd : ℕ) (q : ℚ) (m : ℤ)
    (h : round (q * (10 : ℚ) ^ nd) = m) :
    formatFixed nd q = fmtScaled nd m := by
  unfold formatFixed
  rw [h]

/-- The capacity handed out in `MainWindow.__init__` evaluates to 60. -/
theorem initCurve_eq : initCurve = ⟨60, []⟩ := by
  unfold initCurve
  have h : num_samples = 60 := by
    norm_num [num_samples, CHART_HISTORY_TIME, DAQ_INTERVAL_MS, round_eq]
  rw [h]
  rfl

/-- A concrete shared state used by the witnesses: fresh reading, empty
curves of capacity 60, idle logger. -/
def exampleSys : SysState :=
  { state := ⟨0, 0, 0, 0, 0⟩,
    tscurve_ds_temp := ⟨60, []⟩,
    tscurve_bme_temp := ⟨60, []⟩,
    tscurve_bme_humi := ⟨60, []⟩,
    tscurve_bme_pres := ⟨60, []⟩,
    file_logger := ⟨false, false, false, 0, none, []⟩ }

/-- Like `exampleSys` but with the `starting` latch set (user armed
recording). -/
def armedStartSys : SysState :=
  { exampleSys with file_logger := ⟨true, false, false, 0, none, []⟩ }

/-- Like `exampleSys` but with both latches set (user armed and disarmed
recording between two ticks). -/
def armedBothSys : SysState :=
  { exampleSys with file_logger := ⟨true, true, false, 0, none, []⟩ }

/-! ## The claims -/

/-- Claim C1: for every successful poll whose response parses as exactly 5
numeric fields, the parse/assignment block of `DAQ_function` (the `try:`
body) updates all 5 fields of the shared Reading together, and after the
update each field exactly equals the corresponding parsed value after unit
conversion: `time` is the device value divided by 1000, `bme_pres` the
device value divided by 1e5, and the other three fields the parsed values
unchanged — for all rational inputs, hence no clamping of out-of-range
values.  (The `time` field is subsequently overwritten with the PC clock;
that is claim C7.) -/
theorem C1_atomic_update_unit_conversion (st : Reading) (v0 v1 v2 v3 v4 : ℚ) :
    parseAssign [v0, v1, v2, v3, v4] st =
      some { time := v0 / 1000, ds_temp := v1, bme_temp := v2,
             bme_humi := v3, bme_pres := v4 / 100000 } := rfl

/-- Claim C2: for every failed or malformed poll (query not successful, or
a response whose field count is not 5), `DAQ_function` returns `false` and
the entire shared state — Reading, all 4 chart buffers, and the logger —
is exactly what it was before the tick. -/
theorem C2_failed_poll_no_effect (s : SysState) (p : Poll)
    (h : p.success = false ∨ p.fields.length ≠ 5) :
    DAQ_function p s = (false, s) := by
  rcases h with h | h
  · unfold DAQ_function
    rw [h, if_pos rfl]
  · by_cases hs : p.success = false
    · unfold DAQ_function
      rw [hs, if_pos rfl]
    · unfold DAQ_function
      rw [if_neg hs, parseAssign_wrong_arity p.fields s.state h]

theorem C2_witness :
    DAQ_function ⟨false, [0, 20, 21, 45, 101325], 0, "200729_120000"⟩
        exampleSys = (false, exampleSys) ∧
    DAQ_function ⟨true, [20, 21, 45], 0, "200729_120000"⟩
        exampleSys = (false, exampleSys) :=
  ⟨C2_failed_poll_no_effect exampleSys _ (Or.inl rfl),
   C2_failed_poll_no_effect exampleSys _ (Or.inr (by decide))⟩

/-- Claim C3: after 3 consecutive failed polls the DAQ worker issues no
further queries, whatever happens afterwards (exactly 3 queries ever, the
worker is halted), and the connection-lost signal has fired exactly once. -/
theorem C3_connection_lost_halts (rest : List Bool) :
    workerRun workerInit (false :: false :: false :: rest) =
      (⟨critical_not_alive_count, true, 1⟩, 3) := by
  have h := workerRun_halted rest ⟨3, true, 1⟩ rfl
  show ((workerRun ⟨3, true, 1⟩ rest).1,
        1 + (1 + (1 + (workerRun ⟨3, true, 1⟩ rest).2))) = _
  rw [h]
  rfl

/-- Claim C4: each chart buffer is created with capacity
`CHART_HISTORY_TIME * 1e3 / DAQ_INTERVAL_MS = 60`; for every sequence of
appends the length never exceeds that capacity; after `capacity + 1`
appends the oldest sample has been evicted (the buffer holds exactly the
61-element sequence minus its head, in FIFO order); and the most recently
appended sample is always retrievable. -/
theorem C4_chart_buffer_ring (ps : List (ℚ × ℚ)) (t v : ℚ)
    (c : HistoryChartCurve) :
    initCurve.capacity = 60 ∧
    (appendAll initCurve ps).data.length ≤ initCurve.capacity ∧
    (ps.length = 61 → (appendAll initCurve ps).data = ps.drop 1) ∧
    (1 ≤ c.capacity → (c.add_new_reading t v).data.getLast? = some (t, v)) := by
  rw [initCurve_eq]
  have happ := appendAll_spec ps ⟨60, []⟩ (by exact Nat.zero_le 60)
  refine ⟨rfl, ?_, ?_, ?_⟩
  · rw [happ.1]
    simp only [keepLast, List.length_drop, List.nil_append]
    omega
  · intro h61
    rw [happ.1]
    show ps.drop (([] ++ ps : List (ℚ × ℚ)).length - 60) = ps.drop 1
    rw [List.nil_append, h61]
  · intro h1
    rw [add_new_reading_data]
    show ((c.data ++ [(t, v)]).drop ((c.data ++ [(t, v)]).length - c.capacity)).getLast?
        = some (t, v)
    have hk : (c.data ++ [(t, v)]).length - c.capacity ≤ c.data.length := by
      simp only [List.length_append, List.length_cons, List.length_nil]
      omega
    rw [List.drop_append_of_le_length hk, List.getLast?_concat]

theorem C4_witness :
    initCurve.capacity = 60 ∧
    (appendAll initCurve (List.replicate 61 ((0 : ℚ), (0 : ℚ)))).data.length
        ≤ initCurve.capacity ∧
    (appendAll initCurve (List.replicate 61 ((0 : ℚ), (0 : ℚ)))).data
        = (List.replicate 61 ((0 : ℚ), (0 : ℚ))).drop 1 ∧
    ((⟨60, []⟩ : HistoryChartCurve).add_new_reading 7 8).data.getLast?
        = some (7, 8) := by
  have h := C4_chart_buffer_ring (List.replicate 61 ((0 : ℚ), (0 : ℚ))) 7 8 ⟨60, []⟩
  exact ⟨h.1, h.2.1, h.2.2.1 (by decide), h.2.2.2 (by decide)⟩

/-- Claim C5: a recording session (the `starting` latch is set, then every
tick polls successfully, then the log is closed) produces a file consisting
of exactly the fixed header line followed by one data line per successful
poll, each formatted `"%.1f\t%.3f\t%.3f\t%.3f\t%.5f\n"` on (elapsed time,
ds_temp, bme_temp, bme_humi, bme_pres) where elapsed time is the tick's
Reading time minus the Reading time at session start — so the first line's
elapsed time is 0. -/
theorem C5_log_file_contents (s : SysState) (x : Sample) (rest : List Sample)
    (st0 : ℚ) (cl : List LogFile)
    (h : s.file_logger = ⟨true, false, false, st0, none, cl⟩) :
    ((runDAQ ((x :: rest).map Sample.toPoll) s).file_logger).close_log.closed =
      cl ++ [⟨x.dt ++ ".txt",
        logHeader ++ joinLines ((x :: rest).map (sampleLine x.pc_time))⟩] := by
  show ((runDAQ (rest.map Sample.toPoll)
      (DAQ_function x.toPoll s).2).file_logger).close_log.closed = _
  have hstep : (DAQ_function x.toPoll s).2.file_logger =
      loggerService s.file_logger ⟨x.pc_time, x.w1, x.w2, x.w3, x.w4 / 100000⟩
        x.dt := rfl
  have hstart : (DAQ_function x.toPoll s).2.file_logger =
      ⟨false, false, true, x.pc_time,
       some ⟨x.dt ++ ".txt", logHeader ++ sampleLine x.pc_time x⟩, cl⟩ := by
    rw [hstep, h, loggerService_starting]
    rfl
  rw [runDAQ_recording rest _ x.pc_time (x.dt ++ ".txt")
    (logHeader ++ sampleLine x.pc_time x) cl hstart]
  show cl ++ [⟨x.dt ++ ".txt",
      (logHeader ++ sampleLine x.pc_time x) ++
        joinLines (rest.map (sampleLine x.pc_time))⟩] = _
  rw [String.append_assoc]
  rfl

theorem C5_witness :
    ((runDAQ ([⟨"200729_120000", 0, 0, 20, 21, 45, 101325⟩,
               ⟨"200729_120001", 1, 1000, 201 / 10, 211 / 10, 451 / 10,
                101326⟩].map Sample.toPoll)
        armedStartSys).file_logger).close_log.closed =
      [⟨"200729_120000.txt",
        "time [s]\tDS18B20 temp (\x27C)\tBME280 temp (\x27C)\tBME280 humi (pct)\tBME280 pres (bar)\n0.0\t20.000\t21.000\t45.000\t1.01325\n1.0\t20.100\t21.100\t45.100\t1.01326\n"⟩] := by
  have h := C5_log_file_contents armedStartSys
    ⟨"200729_120000", 0, 0, 20, 21, 45, 101325⟩
    [⟨"200729_120001", 1, 1000, 201 / 10, 211 / 10, 451 / 10, 101326⟩]
    0 [] rfl
  rw [h]
  have l1 : sampleLine 0 ⟨"200729_120000", 0, 0, 20, 21, 45, 101325⟩
      = "0.0\t20.000\t21.000\t45.000\t1.01325\n" := by
    show logLine ((0 : ℚ) - 0) 20 21 45 ((101325 : ℚ) / 100000) = _
    unfold logLine
    rw [formatFixed_eval 1 ((0 : ℚ) - 0) 0 (by norm_num [round_eq]),
        formatFixed_eval 3 (20 : ℚ) 20000 (by norm_num [round_eq]),
        formatFixed_eval 3 (21 : ℚ) 21000 (by norm_num [round_eq]),
        formatFixed_eval 3 (45 : ℚ) 45000 (by norm_num [round_eq]),
        formatFixed_eval 5 ((101325 : ℚ) / 100000) 101325 (by norm_num [round_eq])]
    decide
  have l2 : sampleLine 0 ⟨"200729_120001", 1, 1000, 201 / 10, 211 / 10,
      451 / 10, 101326⟩ = "1.0\t20.100\t21.100\t45.100\t1.01326\n" := by
    show logLine ((1 : ℚ) - 0) (201 / 10) (211 / 10) (451 / 10)
        ((101326 : ℚ) / 100000) = _
    unfold logLine
    rw [formatFixed_eval 1 ((1 : ℚ) - 0) 10 (by norm_num [round_eq]),
        formatFixed_eval 3 ((201 : ℚ) / 10) 20100 (by norm_num [round_eq]),
        formatFixed_eval 3 ((211 : ℚ) / 10) 21100 (by norm_num [round_eq]),
        formatFixed_eval 3 ((451 : ℚ) / 10) 45100 (by norm_num [round_eq]),
        formatFixed_eval 5 ((101326 : ℚ) / 100000) 101326 (by norm_num [round_eq])]
    decide
  simp only [List.map_cons, List.map_nil, joinLines, List.nil_append]
  rw [l1, l2]
  decide

/-- Claim C6: requesting a stop while the Logger is idle performs no file
operation at all (the open-file slot and the closed-file list are both
untouched; only the `stopping` latch is consumed), and requesting a start
while already recording creates no second file and loses no data already
written (only the `starting` latch is consumed, and the call reports
failure); both are total functions, so neither request can raise. -/
theorem C6_redundant_transitions (L : FileLogger) (t : ℚ) (fn : String) :
    (L.is_recording = false ∧ L.file = none →
       L.close_log = { L with stopping := false }) ∧
    (L.is_recording = true →
       (L.create_log t fn).1 = false ∧
       (L.create_log t fn).2 = { L with starting := false }) := by
  constructor
  · rintro ⟨h1, h2⟩
    obtain ⟨a, b, r, st, f, cl⟩ := L
    dsimp only at h1 h2 ⊢
    subst h1
    subst h2
    rfl
  · intro h
    obtain ⟨a, b, r, st, f, cl⟩ := L
    dsimp only at h
    subst h
    exact ⟨rfl, rfl⟩

theorem C6_witness :
    (FileLogger.close_log ⟨false, true, false, 0, none, []⟩ =
       ⟨false, false, false, 0, none, []⟩) ∧
    ((FileLogger.create_log ⟨true, false, true, 5, some ⟨"a.txt", "data"⟩, []⟩
        9 "b.txt").1 = false) ∧
    ((FileLogger.create_log ⟨true, false, true, 5, some ⟨"a.txt", "data"⟩, []⟩
        9 "b.txt").2 = ⟨false, false, true, 5, some ⟨"a.txt", "data"⟩, []⟩) := by
  have h1 := (C6_redundant_transitions ⟨false, true, false, 0, none, []⟩
    9 "b.txt").1 ⟨rfl, rfl⟩
  have h2 := (C6_redundant_transitions
    ⟨true, false, true, 5, some ⟨"a.txt", "data"⟩, []⟩ 9 "b.txt").2 rfl
  exact ⟨h1, h2.1, h2.2⟩

/-- Claim C7: after every successful poll the Reading's time field is the
PC clock value (`time.perf_counter()`), not the device clock: the device
time field is parsed and divided by 1000 in the parse block, but
`use_PC_time` is `True` and the field is overwritten with the PC clock
before the chart buffers and the logger see it. -/
theorem C7_pc_time_overwrites_device_time (s : SysState)
    (v0 v1 v2 v3 v4 pc : ℚ) (dt : String) :
    (parseAssign [v0, v1, v2, v3, v4] s.state).map Reading.time
        = some (v0 / 1000) ∧
    use_PC_time = true ∧
    (DAQ_function ⟨true, [v0, v1, v2, v3, v4], pc, dt⟩ s).2.state.time = pc :=
  ⟨rfl, rfl, rfl⟩

/-- Claim C9: a confirmed "clear chart" empties all 4 chart buffers and
changes nothing else: the shared Reading and the whole logger state (flags,
start time, open file) are untouched. -/
theorem C9_clear_chart_frame (s : SysState) :
    (process_qpbt_clear_chart true s).tscurve_ds_temp.data = [] ∧
    (process_qpbt_clear_chart true s).tscurve_bme_temp.data = [] ∧
    (process_qpbt_clear_chart true s).tscurve_bme_humi.data = [] ∧
    (process_qpbt_clear_chart true s).tscurve_bme_pres.data = [] ∧
    (process_qpbt_clear_chart true s).state = s.state ∧
    (process_qpbt_clear_chart true s).file_logger = s.file_logger :=
  ⟨rfl, rfl, rfl, rfl, rfl, rfl⟩

/-- Claim C10: within one successful tick the `starting` latch is serviced
before the `stopping` latch, and the data line is written only if still
recording afterwards: with both latches pending on an idle logger, the tick
creates the file, writes the header, and closes the file with no data line
ever written (the closed file's content is exactly the header). -/
theorem C10_start_stop_one_tick (s : SysState) (st0 pc v0 v1 v2 v3 v4 : ℚ)
    (dt : String) (cl : List LogFile)
    (h : s.file_logger = ⟨true, true, false, st0, none, cl⟩) :
    (DAQ_function ⟨true, [v0, v1, v2, v3, v4], pc, dt⟩ s).1 = true ∧
    (DAQ_function ⟨true, [v0, v1, v2, v3, v4], pc, dt⟩ s).2.file_logger =
      ⟨false, false, false, pc, none, cl ++ [⟨dt ++ ".txt", logHeader⟩]⟩ := by
  refine ⟨rfl, ?_⟩
  have hstep : (DAQ_function ⟨true, [v0, v1, v2, v3, v4], pc, dt⟩
      s).2.file_logger =
      loggerService s.file_logger ⟨pc, v1, v2, v3, v4 / 100000⟩ dt := rfl
  rw [hstep, h]
  rfl

theorem C10_witness :
    (DAQ_function ⟨true, [0, 20, 21, 45, 101325], 0, "200729_120000"⟩
        armedBothSys).1 = true ∧
    (DAQ_function ⟨true, [0, 20, 21, 45, 101325], 0, "200729_120000"⟩
        armedBothSys).2.file_logger =
      ⟨false, false, false, 0, none, [⟨"200729_120000" ++ ".txt", logHeader⟩]⟩ :=
  C10_start_stop_one_tick armedBothSys 0 0 0 20 21 45 101325
    "200729_120000" [] rfl

/-- Claim C8 is false on the code: the numeric readouts (`update_GUI`) are
not driven by the independent 500 ms timer; `main.py` connects `update_GUI`
to the acquisition's `signal_DAQ_updated` instead, and the 500 ms
`timer_chart` drives only `update_chart`. -/
theorem C8_counterexample :
    (UiTrigger.timer_chart, UiSlot.update_GUI) ∉ uiConnections ∧
    (UiTrigger.signal_DAQ_updated, UiSlot.update_GUI) ∈ uiConnections := by
  decide

/-- Claim C8 as amended: the rolling-chart redraw runs on the second,
independent 500 ms timer (`timer_chart` → `update_chart`), while the
numeric readouts (`update_GUI`) are redrawn in response to the
acquisition's `signal_DAQ_updated` — at the 1000 ms acquisition cadence —
and not by the 500 ms timer. -/
theorem C8_amended_wiring :
    (UiTrigger.timer_chart, UiSlot.update_chart) ∈ uiConnections ∧
    (UiTrigger.signal_DAQ_updated, UiSlot.update_GUI) ∈ uiConnections ∧
    (UiTrigger.timer_chart, UiSlot.update_GUI) ∉ uiConnections ∧
    CHART_INTERVAL_MS = 500 ∧ DAQ_INTERVAL_MS = 1000 := by
  decide

end BmeLogger
